import Mathlib

/-!
Shallow embedding of the JAKE turn-orchestration core
(src/agents/jake_orchestrator.py and the stage adapters it drives:
jake_chatter.py, jake_checker.py, jake_dynamic_profiler.py,
jake_summarizer.py), together with theorems settling the frozen claims
about it.  External text-generation calls (the LangChain
`chain.invoke` calls) are modelled as oracle functions from the exact
structured payload the source passes to `invoke` to the parsed result;
everything else is translated directly from the Python source.
-/

namespace Jake

/-! ## Small string helpers mirroring Python string operations -/

/-- Python `"sep".join(xs)` semantics. -/
def joinWith (sep : String) : List String → String
  | [] => ""
  | [x] => x
  | x :: y :: xs => x ++ sep ++ joinWith sep (y :: xs)

/-- Python `s.lower()` (ASCII case fold, as used on the marker check). -/
def lowerStr (s : String) : String := String.mk (s.data.map Char.toLower)

/-- Python `s.upper()`. -/
def upperStr (s : String) : String := String.mk (s.data.map Char.toUpper)

/-- Python `pat in s` substring containment. -/
def strContains (s pat : String) : Bool :=
  (List.range (s.data.length + 1)).any fun i => pat.data.isPrefixOf (s.data.drop i)

/-- Python `s.strip()` on the whitespace characters Lean models
(space, tab, carriage return, newline). -/
def pyStrip (s : String) : String :=
  String.mk (((s.data.dropWhile Char.isWhitespace).reverse.dropWhile Char.isWhitespace).reverse)

/-- Python `s.replace(UNDERSCORE, SPACE)` for the one-character pattern used in
`jake_dynamic_profiler.py`. -/
def replaceUnderscore (s : String) : String :=
  String.mk (s.data.map fun c => if c = '_' then ' ' else c)

/-- Python `s.title()`: the first alphabetic character of each alphabetic run
is uppercased and the rest lowercased. -/
def pyTitle (s : String) : String :=
  String.mk (s.data.foldl
    (fun (acc : List Char × Bool) c =>
      if c.isAlpha then (acc.1 ++ [if acc.2 then c.toLower else c.toUpper], true)
      else (acc.1 ++ [c], false)) ([], false)).1

/-- Python `l[-n:]`: the last `n` elements (all of them when the list is
shorter). -/
def lastN (n : Nat) (l : List α) : List α := l.drop (l.length - n)

/-! ## Data model -/

/-- One entry of the conversation history: a Python `Dict[str, str]` whose
`role` and `content` keys may be absent (`dict.get` returns `None`). -/
structure HistEntry where
  role : Option String
  content : Option String
deriving Repr, DecidableEq

/-- LangChain message objects built by `JAKEChatter._chat` for the prompt
history: `HumanMessage` or `AIMessage` with a content string. -/
inductive LCMessage where
  | human (content : String)
  | ai (content : String)
deriving Repr, DecidableEq

/-- Schema of `ChatResponse` in jake_chatter.py: all seven fields required by
pydantic; the two integer fields carry no range constraint (the `Field`
declarations give only descriptions). -/
structure ChatResponse where
  dialogue : String
  action : String
  situation : String
  background : String
  affection_score : Int
  affection_change : Int
  internal_thought : String
deriving Repr, DecidableEq

/-- Raw structured output of the completion capability for the chat stage,
before pydantic validation: any field may be absent. -/
structure RawChatOutput where
  dialogue : Option String
  action : Option String
  situation : Option String
  background : Option String
  affection_score : Option Int
  affection_change : Option Int
  internal_thought : Option String
deriving Repr, DecidableEq

/-- Pydantic validation of `ChatResponse`: every field is required, none has a
numeric bound, so validation succeeds exactly when all seven fields are
present.  `none` models the `ValidationError` raised by
`with_structured_output(ChatResponse)` on a missing field. -/
def validateChatResponse (raw : RawChatOutput) : Option ChatResponse :=
  match raw.dialogue, raw.action, raw.situation, raw.background,
        raw.affection_score, raw.affection_change, raw.internal_thought with
  | some d, some a, some s, some b, some sc, some c, some t =>
      some ⟨d, a, s, b, sc, c, t⟩
  | _, _, _, _, _, _, _ => none

/-- One quest record: id, title, description, binary cleared flag, and an
optional required-affection threshold (present on advancement quests). -/
structure Quest where
  id : String
  title : String
  description : String
  cleared : Int
  required_affection : Option Int
deriving Repr, DecidableEq

/-- A quest payload `{"quests": [...]}`. -/
structure QuestCollection where
  quests : List Quest
deriving Repr, DecidableEq

/-- Result of `JAKEChecker.check_quests`: both updated collections, tagged by
their original type. -/
structure QuestResults where
  regular_quests : QuestCollection
  advancement_quests : QuestCollection
deriving Repr, DecidableEq

/-- The five-category memory bundle of `JAKESummarizer`. -/
structure MemoryFacts where
  facts : List String
  emotions : List String
  key_events : List String
  user_info : List String
  character_revelations : List String
deriving Repr, DecidableEq

/-- The all-empty bundle returned by the short-circuit branch of
`get_memory`. -/
def emptyMemoryFacts : MemoryFacts := ⟨[], [], [], [], []⟩

/-- Character basics dictionary; keys may be absent. -/
structure CharacterBasics where
  name : Option String
  age : Option String
  occupation : Option String
deriving Repr, DecidableEq

/-- A character profile as the orchestrator receives it: basics, the details
dictionary (an ordered association list, like a Python dict), and the
dynamic-profile addendum string. -/
structure Character where
  basics : CharacterBasics
  details : List (String × String)
  dynamic_profile : String
deriving Repr, DecidableEq

/-! ## JAKEChatter (jake_chatter.py) -/

/-- Modelled from the spec: `PromptManager.get_character_context_template` is
referenced by `jake_chatter.py` line 47 but absent from the source tree.  Per
the spec the trait bundle is folded into one context blob; this definition
folds the ten formatted fields into one labelled text block. -/
def characterContextTemplate (name age occupation personality quirks
    speaking_style likes dislikes background goals : String) : String :=
  "Name: " ++ name ++ "\nAge: " ++ age ++ "\nOccupation: " ++ occupation ++
  "\nPersonality: " ++ personality ++ "\nQuirks: " ++ quirks ++
  "\nSpeaking style: " ++ speaking_style ++ "\nLikes: " ++ likes ++
  "\nDislikes: " ++ dislikes ++ "\nBackground: " ++ background ++
  "\nGoals: " ++ goals

/-- Modelled from the spec: `PromptManager.get_character_context_dynamic_suffix`
is referenced by `jake_chatter.py` line 62 but absent from the source tree.
Per the spec a non-empty profile addendum is appended as a clearly delimited
suffix. -/
def characterContextDynamicSuffix (dynamic_profile : String) : String :=
  "\n\n=== Learned During Conversation ===\n" ++ dynamic_profile

/-- Python dict lookup with default, `d.get(key, default)`, on an ordered
association list. -/
def lookupD (l : List (String × String)) (key default : String) : String :=
  (l.lookup key).getD default

/-- `JAKEChatter._build_character_context`. -/
def buildCharacterContext (character_basics : CharacterBasics)
    (character_details : List (String × String)) (dynamic_profile : String) : String :=
  let context := characterContextTemplate
    (character_basics.name.getD "Unknown")
    (character_basics.age.getD "Unknown")
    (character_basics.occupation.getD "Unknown")
    (lookupD character_details "personality" "Not specified")
    (lookupD character_details "quirks" "Not specified")
    (lookupD character_details "speaking_style" "Not specified")
    (lookupD character_details "likes" "Not specified")
    (lookupD character_details "dislikes" "Not specified")
    (lookupD character_details "background" "Not specified")
    (lookupD character_details "goals" "Not specified")
  if dynamic_profile ≠ "" then
    context ++ characterContextDynamicSuffix dynamic_profile
  else context

/-- The loop body of `JAKEChatter._chat` lines 100 to 109: an entry
contributes a message only when both `role` and `content` are present and
truthy (non-empty) and the role is `user` or `assistant`; every other entry
contributes nothing. -/
def chatEntryMessage (turn : HistEntry) : Option LCMessage :=
  match turn.role, turn.content with
  | some role, some content =>
      if role ≠ "" ∧ content ≠ "" then
        if role = "user" then some (LCMessage.human content)
        else if role = "assistant" then some (LCMessage.ai content)
        else none
      else none
  | _, _ => none

/-- The history-formatting loop of `JAKEChatter._chat`. -/
def formatChatHistory (history : List HistEntry) : List LCMessage :=
  history.filterMap chatEntryMessage

/-- The structured payload `JAKEChatter._chat` passes to `chain.invoke`. -/
structure ChatCall where
  character_context : String
  current_affection : Int
  history : List LCMessage
  query : String
deriving Repr, DecidableEq

/-- The `chain.invoke` payload built by `JAKEChatter._chat` for a given
`chat` call (which unpacks the character dict with defaults). -/
def chatCallOf (query : String) (character : Character)
    (history : List HistEntry) (current_affection : Int) : ChatCall :=
  { character_context :=
      buildCharacterContext character.basics character.details character.dynamic_profile,
    current_affection := current_affection,
    history := formatChatHistory history,
    query := query }

/-! ## JAKEChecker (jake_checker.py) -/

/-- One formatted history line, `f"{role.upper()}: {content}"` with the
defaults of `dict.get` used by the checker and the profiler. -/
def formatLine (e : HistEntry) : String :=
  upperStr (e.role.getD "unknown") ++ ": " ++ e.content.getD ""

/-- `JAKEChecker._format_history`: formats only the last six messages
(`history[-6:]`). -/
def formatHistoryChecker (history : List HistEntry) : String :=
  joinWith "\n" ((lastN 6 history).map formatLine)

/-- The `chain.invoke` payload of `JAKEChecker._check_quest`. -/
structure QuestCheckCall where
  history : String
  quest_json : QuestCollection
deriving Repr, DecidableEq

/-- The `chain.invoke` payload of `JAKEChecker._check_advancement_quest`. -/
structure AdvCheckCall where
  history : String
  quest_json : QuestCollection
  affection : Int
  stage : String
deriving Repr, DecidableEq

/-- The payload `_check_quest` passes to the capability. -/
def questCallOf (history : List HistEntry) (dict_quest : QuestCollection) : QuestCheckCall :=
  { history := formatHistoryChecker history, quest_json := dict_quest }

/-- The payload `_check_advancement_quest` passes to the capability. -/
def advCallOf (history : List HistEntry) (dict_quest : QuestCollection)
    (current_affection : Int) (relationship_stage : String) : AdvCheckCall :=
  { history := formatHistoryChecker history, quest_json := dict_quest,
    affection := current_affection, stage := relationship_stage }

/-- `JAKEChecker._check_quest` with the completion capability as an oracle. -/
def checkQuest (oracle : QuestCheckCall → QuestCollection)
    (history : List HistEntry) (dict_quest : QuestCollection) : QuestCollection :=
  oracle (questCallOf history dict_quest)

/-- `JAKEChecker._check_advancement_quest` with the capability as an oracle. -/
def checkAdvancementQuest (oracle : AdvCheckCall → QuestCollection)
    (history : List HistEntry) (dict_quest : QuestCollection)
    (current_affection : Int) (relationship_stage : String) : QuestCollection :=
  oracle (advCallOf history dict_quest current_affection relationship_stage)

/-- `JAKEChecker.check_quests`. -/
def checkQuests (regOracle : QuestCheckCall → QuestCollection)
    (advOracle : AdvCheckCall → QuestCollection)
    (history : List HistEntry) (regular_quests advancement_quests : QuestCollection)
    (current_affection : Int) (relationship_stage : String) : QuestResults :=
  { regular_quests := checkQuest regOracle history regular_quests,
    advancement_quests :=
      checkAdvancementQuest advOracle history advancement_quests
        current_affection relationship_stage }

/-! ## JAKESummarizer (jake_summarizer.py) -/

/-- `JAKESummarizer._extract_facts`. -/
def extractFacts (user_msg assistant_msg : String) : String :=
  "USER: " ++ user_msg ++ "\nCHARACTER: " ++ assistant_msg

/-- The `chain.invoke` payload of `JAKESummarizer.get_memory`. -/
structure MemoryCall where
  character_name : String
  conversation_turn : String
deriving Repr, DecidableEq

/-- `JAKESummarizer.get_memory`, additionally returning the list of
capability calls it made (so that the not-invoked property is expressible).
With fewer than two messages it returns the explicit all-empty bundle
without calling the capability; otherwise it extracts the last
user/assistant pair (`history[-2]`, `history[-1]`) and makes one call. -/
def getMemory (oracle : MemoryCall → MemoryFacts) (history : List HistEntry)
    (character_name : String) : MemoryFacts × List MemoryCall :=
  if history.length < 2 then (emptyMemoryFacts, [])
  else
    let user_msg := ((history.getD (history.length - 2) ⟨none, none⟩).content).getD ""
    let assistant_msg := ((history.getD (history.length - 1) ⟨none, none⟩).content).getD ""
    let call : MemoryCall :=
      { character_name := character_name,
        conversation_turn := extractFacts user_msg assistant_msg }
    (oracle call, [call])

/-! ## JAKEDynamicProfiler (jake_dynamic_profiler.py) -/

/-- `JAKEDynamicProfiler._format_history`: the last `num_turns * 2`
messages, one formatted line per message. -/
def formatHistoryProfiler (history : List HistEntry) (num_turns : Nat) : String :=
  joinWith "\n" ((lastN (num_turns * 2) history).map formatLine)

/-- Rendering of a Python string inside a dict repr (quote escaping of
special characters elided; no claim depends on this text). -/
def pyStrRepr (s : String) : String := "\x27" ++ s ++ "\x27"

/-- Rendering of one quest dict as Python would interpolate it into an
f-string. -/
def questRepr (q : Quest) : String :=
  "\x7b\x27id\x27: " ++ pyStrRepr q.id ++
  ", \x27title\x27: " ++ pyStrRepr q.title ++
  ", \x27description\x27: " ++ pyStrRepr q.description ++
  (match q.required_affection with
   | some r => ", \x27required_affection\x27: " ++ toString r
   | none => "") ++
  ", \x27cleared\x27: " ++ toString q.cleared ++ "\x7d"

/-- Rendering of a quest collection dict. -/
def questCollectionRepr (c : QuestCollection) : String :=
  "\x7b\x27quests\x27: [" ++ joinWith ", " (c.quests.map questRepr) ++ "]\x7d"

/-- Rendering of the check_quests result dict. -/
def questResultsRepr (r : QuestResults) : String :=
  "\x7b\x27regular_quests\x27: " ++ questCollectionRepr r.regular_quests ++
  ", \x27advancement_quests\x27: " ++ questCollectionRepr r.advancement_quests ++ "\x7d"

/-- The `quest_info` string of `_dynamic_profile`: empty when no (truthy)
quest context is given, otherwise the f-string with the interpolated dict. -/
def questInfoText (quest_context : Option QuestResults) : String :=
  match quest_context with
  | some qc => "\n\nRecent Quest Activity:\n" ++ questResultsRepr qc
  | none => ""

/-- The `original_profile` text of `_dynamic_profile`: one line per details
entry, `f"- {key.replace(UNDERSCORE, SPACE).title()}: {value}"`. -/
def originalProfileText (character_details : List (String × String)) : String :=
  joinWith "\n" (character_details.map fun kv =>
    "- " ++ pyTitle (replaceUnderscore kv.1) ++ ": " ++ kv.2)

/-- The `chain.invoke` payload of `JAKEDynamicProfiler._dynamic_profile`. -/
structure ProfileCall where
  original_profile : String
  history : String
  quest_info : String
deriving Repr, DecidableEq

/-- The payload `_dynamic_profile` passes to the capability. -/
def profileCallOf (character_details : List (String × String))
    (history : List HistEntry) (quest_context : Option QuestResults) : ProfileCall :=
  { original_profile := originalProfileText character_details,
    history := formatHistoryProfiler history 3,
    quest_info := questInfoText quest_context }

/-- `JAKEDynamicProfiler._dynamic_profile`: runs the capability, returns the
empty string when the lowercased output contains the no-updates marker, and
the stripped output otherwise. -/
def dynamicProfile (oracle : ProfileCall → String) (history : List HistEntry)
    (character_details : List (String × String))
    (quest_context : Option QuestResults) : String :=
  let dynamic_profile := oracle (profileCallOf character_details history quest_context)
  if strContains (lowerStr dynamic_profile) "no significant updates" then ""
  else pyStrip dynamic_profile

/-- `JAKEDynamicProfiler.update_profile`: empty additions pass the existing
addendum through; otherwise the additions are appended under the
`=== Recent Updates ===` heading when an addendum already exists, and
returned bare when it does not. -/
def updateProfile (oracle : ProfileCall → String) (character : Character)
    (history : List HistEntry) (quest_context : Option QuestResults) : String :=
  let existing_dynamic := character.dynamic_profile
  let new_additions := dynamicProfile oracle history character.details quest_context
  if new_additions = "" then existing_dynamic
  else if existing_dynamic ≠ "" then
    existing_dynamic ++ ("\n\n=== Recent Updates ===\n" ++ new_additions)
  else new_additions

/-! ## JAKEOrchestrator (jake_orchestrator.py) -/

/-- The external completion capability behind each stage, one oracle per
`chain.invoke` shape.  Each oracle maps the exact structured payload the
source passes to `invoke` to the parsed result. -/
structure Oracles where
  chat : ChatCall → RawChatOutput
  regQuest : QuestCheckCall → QuestCollection
  advQuest : AdvCheckCall → QuestCollection
  profile : ProfileCall → String
  memory : MemoryCall → MemoryFacts

/-- `ConversationState` of the LangGraph workflow.  The Python initial values
for the output fields are empty dicts; those are modelled as `none`. -/
structure ConversationState where
  user_message : String
  character : Character
  history : List HistEntry
  regular_quests : QuestCollection
  advancement_quests : QuestCollection
  current_affection : Int
  relationship_stage : String
  turn_count : Nat
  response : Option ChatResponse
  updated_quests : Option QuestResults
  updated_dynamic_profile : String
  memories : Option MemoryFacts
  updated_affection : Int

/-- `_chat_node`: run the chatter (its structured output must validate, else
the turn raises) and clamp the returned score into [0, 100].  Because
validation guarantees the field is present, the `dict.get` default for
`affection_score` in the source can never fire. -/
def chatNode (orc : Oracles) (s : ConversationState) : Option ConversationState := do
  let response ← validateChatResponse
    (orc.chat (chatCallOf s.user_message s.character s.history s.current_affection))
  let new_affection := min 100 (max 0 response.affection_score)
  pure { s with response := some response, updated_affection := new_affection }

/-- The updated history every post-chat node builds: the input history
extended with the new user message and the dialogue of the new reply. -/
def extendedHist (history : List HistEntry) (user_message dialogue : String) :
    List HistEntry :=
  history ++ [⟨some "user", some user_message⟩, ⟨some "assistant", some dialogue⟩]

/-- `_check_quests_node`: check both quest collections against the extended
history, using the already-updated affection, and store the result. -/
def checkQuestsNode (orc : Oracles) (s : ConversationState) : Option ConversationState := do
  let response ← s.response
  let updated_history := extendedHist s.history s.user_message response.dialogue
  let quest_results := checkQuests orc.regQuest orc.advQuest updated_history
    s.regular_quests s.advancement_quests s.updated_affection s.relationship_stage
  pure { s with updated_quests := some quest_results }

/-- `_update_profile_node`: update the dynamic profile from the extended
history with the stored quest results as context. -/
def updateProfileNode (orc : Oracles) (s : ConversationState) : Option ConversationState := do
  let response ← s.response
  let updated_history := extendedHist s.history s.user_message response.dialogue
  let quest_context := s.updated_quests
  let updated_profile := updateProfile orc.profile s.character updated_history quest_context
  pure { s with updated_dynamic_profile := updated_profile }

/-- `_summarize_node`: extract memories from the extended history.  The
source indexes `state["character"]["basics"]["name"]` directly, so a missing
name raises; that failure is modelled as `none`. -/
def summarizeNode (orc : Oracles) (s : ConversationState) : Option ConversationState := do
  let response ← s.response
  let updated_history := extendedHist s.history s.user_message response.dialogue
  let character_name ← s.character.basics.name
  let memories := (getMemory orc.memory updated_history character_name).1
  pure { s with memories := some memories }

/-- `_route_after_chat`: the routing label, a function of the turn count
alone. -/
def routeAfterChat (s : ConversationState) : String :=
  if s.turn_count < 3 then "summarize_only"
  else if s.turn_count < 10 then "check_and_summarize"
  else "full_process"

/-- `_route_after_quest_check`: the second routing label, again a function of
the turn count alone. -/
def routeAfterQuestCheck (s : ConversationState) : String :=
  if s.turn_count ≥ 10 then "update_profile" else "summarize"

/-- Names of the workflow nodes, used to record which stages ran. -/
inductive NodeName where
  | chat
  | check_quests
  | update_profile
  | summarize
deriving Repr, DecidableEq

/-- The compiled LangGraph workflow: entry point `chat`; the conditional
edges map `summarize_only` to `summarize` and both other labels to
`check_quests`; after `check_quests` the label `update_profile` goes to the
profile node and `summarize` to the summarizer; `update_profile` always
continues to `summarize`; `summarize` ends the graph.  The trace of executed
nodes is returned alongside the final state. -/
def runGraph (orc : Oracles) (s0 : ConversationState) :
    Option (ConversationState × List NodeName) := do
  let s1 ← chatNode orc s0
  if routeAfterChat s1 = "summarize_only" then
    let s2 ← summarizeNode orc s1
    pure (s2, [.chat, .summarize])
  else
    let s2 ← checkQuestsNode orc s1
    if routeAfterQuestCheck s2 = "update_profile" then
      let s3 ← updateProfileNode orc s2
      let s4 ← summarizeNode orc s3
      pure (s4, [.chat, .check_quests, .update_profile, .summarize])
    else
      let s3 ← summarizeNode orc s2
      pure (s3, [.chat, .check_quests, .summarize])

/-- The result dictionary `process_message` returns. -/
structure TurnResult where
  response : ChatResponse
  updated_affection : Int
  updated_quests : Option QuestResults
  updated_dynamic_profile : String
  memories : Option MemoryFacts
deriving Repr, DecidableEq

/-- `JAKEOrchestrator.process_message` (the ProcessTurn operation): compute
the turn count as floor of half the history length, build the initial state
(with `or`-defaults for absent quest payloads), run the graph, and project
the result fields.  `none` models a raised exception (a failed turn);
alongside the result the trace of executed nodes is returned. -/
def processMessage (orc : Oracles) (user_message : String) (character : Character)
    (history : List HistEntry) (regular_quests advancement_quests : Option QuestCollection)
    (current_affection : Int) (relationship_stage : String) :
    Option (TurnResult × List NodeName) := do
  let turn_count := history.length / 2
  let s0 : ConversationState :=
    { user_message := user_message, character := character, history := history,
      regular_quests := regular_quests.getD ⟨[]⟩,
      advancement_quests := advancement_quests.getD ⟨[]⟩,
      current_affection := current_affection,
      relationship_stage := relationship_stage,
      turn_count := turn_count,
      response := none, updated_quests := none, updated_dynamic_profile := "",
      memories := none, updated_affection := current_affection }
  let (sf, trace) ← runGraph orc s0
  let response ← sf.response
  pure ({ response := response,
          updated_affection := sf.updated_affection,
          updated_quests := sf.updated_quests,
          updated_dynamic_profile := sf.updated_dynamic_profile,
          memories := sf.memories }, trace)

/-! ## Concrete instances used by witnesses and counterexamples -/

/-- Predicate, from the claim wording, for a history entry that the chat
prompt builder is claimed to omit: role or content absent or empty, or a
role other than user and assistant. -/
def chatSkipped (e : HistEntry) : Bool :=
  match e.role, e.content with
  | some role, some content =>
      role == "" || content == "" || (role != "user" && role != "assistant")
  | _, _ => true

/-- Sample character basics. -/
def sampleBasics : CharacterBasics := ⟨some "Luna", some "25", some "Cafe owner"⟩

/-- Sample character. -/
def sampleCharacter : Character :=
  ⟨sampleBasics, [("personality", "warm"), ("likes", "books")], ""⟩

/-- Sample raw chat-stage output with every field present. -/
def sampleRaw : RawChatOutput :=
  ⟨some "Hello there", some "smiles", some "cafe", some "evening",
   some 60, some 2, some "curious"⟩

/-- The validated form of `sampleRaw`. -/
def sampleResp : ChatResponse :=
  ⟨"Hello there", "smiles", "cafe", "evening", 60, 2, "curious"⟩

/-- Sample oracle bundle: fixed chat reply, identity quest checks, the
no-updates profile marker, empty memories. -/
def sampleOracles : Oracles :=
  { chat := fun _ => sampleRaw,
    regQuest := fun c => c.quest_json,
    advQuest := fun c => c.quest_json,
    profile := fun _ => "no significant updates",
    memory := fun _ => emptyMemoryFacts }

/-- A history of `n` alternating user and assistant messages. -/
def histN (n : Nat) : List HistEntry :=
  (List.range n).map fun i =>
    if i % 2 = 0 then ⟨some "user", some ("m" ++ toString i)⟩
    else ⟨some "assistant", some ("m" ++ toString i)⟩

/-- A quest-stage output that regresses every cleared flag to 0. -/
def clearAllQuests (c : QuestCollection) : QuestCollection :=
  ⟨c.quests.map fun q => { q with cleared := 0 }⟩

/-- Oracle bundle whose quest stage regresses every cleared flag. -/
def regressOracles : Oracles :=
  { sampleOracles with
    regQuest := fun c => clearAllQuests c.quest_json,
    advQuest := fun c => clearAllQuests c.quest_json }

/-- An input quest that is already cleared. -/
def c1quest : Quest := ⟨"quest_001", "Shared Interests", "Find a common interest", 1, none⟩

/-- The same quest with its cleared flag regressed to 0. -/
def c1questRegressed : Quest :=
  ⟨"quest_001", "Shared Interests", "Find a common interest", 0, none⟩

/-- The turn result of running `regressOracles` on an 8-message history with
`c1quest` as the routine collection. -/
def c1result : TurnResult :=
  { response := sampleResp, updated_affection := 60,
    updated_quests := some ⟨⟨[c1questRegressed]⟩, ⟨[]⟩⟩,
    updated_dynamic_profile := "", memories := some emptyMemoryFacts }

/-- The node trace of that run. -/
def c1trace : List NodeName := [.chat, .check_quests, .summarize]

/-- The turn result of running `sampleOracles` on an 8-message history. -/
def c2result : TurnResult :=
  { response := sampleResp, updated_affection := 60,
    updated_quests := some ⟨⟨[]⟩, ⟨[]⟩⟩,
    updated_dynamic_profile := "", memories := some emptyMemoryFacts }

/-- The node trace of that run. -/
def c2trace : List NodeName := [.chat, .check_quests, .summarize]

/-- A raw chat output whose affection score is out of range. -/
def raw137 : RawChatOutput := { sampleRaw with affection_score := some 137 }

/-- Oracle bundle returning the out-of-range score. -/
def oracles137 : Oracles := { sampleOracles with chat := fun _ => raw137 }

/-- The validated response with score 137. -/
def c3resp : ChatResponse :=
  ⟨"Hello there", "smiles", "cafe", "evening", 137, 2, "curious"⟩

/-- The turn result of running `oracles137` on an empty history. -/
def c3result : TurnResult :=
  { response := c3resp, updated_affection := 100, updated_quests := none,
    updated_dynamic_profile := "", memories := some emptyMemoryFacts }

/-- The node trace of that run. -/
def c3trace : List NodeName := [.chat, .summarize]

/-- An early history entry that the milestone check drops. -/
def c4early : HistEntry := ⟨some "user", some "I once lived in Paris"⟩

/-- A six-message history. -/
def c4h2 : List HistEntry := histN 6

/-- The same history with one extra earlier message. -/
def c4h1 : List HistEntry := c4early :: c4h2

/-- The turn result of running `oracles137` with a distinct user message,
for the error-handling counterexample. -/
def c5result : TurnResult :=
  { response := c3resp, updated_affection := 100, updated_quests := none,
    updated_dynamic_profile := "", memories := some emptyMemoryFacts }

/-- A raw chat output missing its required affection_score field. -/
def rawMissingScore : RawChatOutput := { sampleRaw with affection_score := none }

/-- Oracle bundle whose chat stage omits the affection score. -/
def oraclesMissing : Oracles := { sampleOracles with chat := fun _ => rawMissingScore }

/-- Profile oracle answering with a cased variant of the no-updates marker. -/
def c6oracle : ProfileCall → String := fun _ => "NO SIGNIFICANT Updates to report"

/-- A character with a non-empty existing addendum. -/
def c6char : Character :=
  ⟨sampleBasics, [("likes", "tea")], "She hums while brewing tea"⟩

/-- Memory oracle with visibly non-empty output, to show it is not used. -/
def c7oracle : MemoryCall → MemoryFacts := fun _ => ⟨["should not appear"], [], [], [], []⟩

/-- A one-message history. -/
def c7hist : List HistEntry := [⟨some "user", some "hello"⟩]

/-- The turn result of running `sampleOracles` on a 20-message history. -/
def c8result : TurnResult :=
  { response := sampleResp, updated_affection := 60,
    updated_quests := some ⟨⟨[]⟩, ⟨[]⟩⟩,
    updated_dynamic_profile := "", memories := some emptyMemoryFacts }

/-- The node trace of that run. -/
def c8trace : List NodeName := [.chat, .check_quests, .update_profile, .summarize]

/-- Profile oracle proposing a genuine addition. -/
def c9oracle : ProfileCall → String := fun _ => "Enjoys stargazing"

/-- A character whose existing addendum is empty. -/
def c9char : Character := ⟨sampleBasics, [("likes", "tea")], ""⟩

/-- A character whose existing addendum is non-empty. -/
def w9char : Character := ⟨sampleBasics, [("likes", "tea")], "OLD NOTES"⟩

/-- A history entry with a non-user, non-assistant role. -/
def c10entry : HistEntry := ⟨some "system", some "be nice"⟩

/-- Entries surrounding the skipped one. -/
def c10l1 : List HistEntry := [⟨some "user", some "hi"⟩]

/-- Entries surrounding the skipped one. -/
def c10l2 : List HistEntry := [⟨some "assistant", some "hey"⟩]

/-! ## Helper lemmas -/

theorem getD_append_two_left (l : List α) (x y d : α) :
    (l ++ [x, y]).getD l.length d = x := by
  induction l with
  | nil => rfl
  | cons a t ih => simpa using ih

theorem getD_append_two_right (l : List α) (x y d : α) :
    (l ++ [x, y]).getD (l.length + 1) d = y := by
  induction l with
  | nil => rfl
  | cons a t ih => simpa using ih

theorem lastN_lastN (n : Nat) (l : List α) : lastN n (lastN n l) = lastN n l := by
  unfold lastN
  rw [List.length_drop]
  have h0 : l.length - (l.length - n) - n = 0 := by omega
  rw [h0, List.drop_zero]

/-- On an extended history (which always holds at least the new pair), the
summarizer extracts exactly the new user message and reply dialogue and makes
exactly one capability call. -/
theorem getMemory_extended (oracle : MemoryCall → MemoryFacts)
    (history : List HistEntry) (u d nm : String) :
    getMemory oracle (extendedHist history u d) nm =
      (oracle ⟨nm, extractFacts u d⟩, [⟨nm, extractFacts u d⟩]) := by
  have hlen : (extendedHist history u d).length = history.length + 2 := by
    simp [extendedHist]
  rw [getMemory, if_neg (by omega), hlen]
  have h2 : history.length + 2 - 2 = history.length := by omega
  have h1 : history.length + 2 - 1 = history.length + 1 := by omega
  rw [h2, h1, extendedHist, getD_append_two_left, getD_append_two_right]
  rfl

/-- Evaluation of `processMessage` into its normal form: the turn fails
exactly when chat validation fails or the character name is absent, and
otherwise follows one of the three fixed routes determined by the turn
count. -/
theorem processMessage_eq (orc : Oracles) (u : String) (ch : Character)
    (hist : List HistEntry) (rq aq : Option QuestCollection) (aff : Int) (st : String) :
    processMessage orc u ch hist rq aq aff st =
      match validateChatResponse (orc.chat (chatCallOf u ch hist aff)), ch.basics.name with
      | some resp, some nm =>
        let t := hist.length / 2
        let eh := extendedHist hist u resp.dialogue
        let ua := min 100 (max 0 resp.affection_score)
        let mem := orc.memory ⟨nm, extractFacts u resp.dialogue⟩
        if t < 3 then
          some ({ response := resp, updated_affection := ua, updated_quests := none,
                  updated_dynamic_profile := "", memories := some mem },
                [.chat, .summarize])
        else
          let qres := checkQuests orc.regQuest orc.advQuest eh (rq.getD ⟨[]⟩)
            (aq.getD ⟨[]⟩) ua st
          if t < 10 then
            some ({ response := resp, updated_affection := ua,
                    updated_quests := some qres,
                    updated_dynamic_profile := "", memories := some mem },
                  [.chat, .check_quests, .summarize])
          else
            some ({ response := resp, updated_affection := ua,
                    updated_quests := some qres,
                    updated_dynamic_profile :=
                      updateProfile orc.profile ch eh (some qres),
                    memories := some mem },
                  [.chat, .check_quests, .update_profile, .summarize])
      | some _, none => none
      | none, _ => none := by
  cases hv : validateChatResponse (orc.chat (chatCallOf u ch hist aff)) with
  | none =>
    simp [processMessage, runGraph, chatNode, hv]
  | some resp =>
    cases hn : ch.basics.name with
    | none =>
      simp only [processMessage, runGraph, chatNode, checkQuestsNode,
        updateProfileNode, summarizeNode, routeAfterChat, routeAfterQuestCheck,
        hv, hn, Option.pure_def, Option.bind_eq_bind, Option.some_bind,
        Option.none_bind]
      split_ifs <;> simp_all
    | some nm =>
      simp only [processMessage, runGraph, chatNode, checkQuestsNode,
        updateProfileNode, summarizeNode, routeAfterChat, routeAfterQuestCheck,
        hv, hn, Option.pure_def, Option.bind_eq_bind, Option.some_bind,
        Option.none_bind, getMemory_extended]
      split_ifs <;> first
        | omega
        | simp_all [checkQuests]

/-! ## Claims -/

/-- C1 counterexample: with a routine quest whose cleared flag is 1 in the
input and a quest-stage output that regresses it to 0, the merged TurnResult
carries cleared 0 — the orchestrator does not enforce monotonicity. -/
theorem C1_counterexample :
    c1quest.cleared = 1 ∧
    processMessage regressOracles "hi" sampleCharacter (histN 8)
      (some ⟨[c1quest]⟩) none 50 "friend" = some (c1result, c1trace) ∧
    c1result.updated_quests = some ⟨⟨[c1questRegressed]⟩, ⟨[]⟩⟩ ∧
    c1questRegressed.cleared = 0 := by
  refine ⟨by decide, by decide, by decide, by decide⟩

/-- C1 amended: whenever the Quest Stage runs, the quest payload of the
merged TurnResult is exactly the Quest Stage output, passed through with no
monotonicity guard — a stage output regressing a cleared flag appears
regressed in the TurnResult. -/
theorem C1_amended_no_regression_guard (orc : Oracles) (u : String) (ch : Character)
    (hist : List HistEntry) (rq aq : Option QuestCollection) (aff : Int) (st : String)
    (res : TurnResult) (tr : List NodeName)
    (h : processMessage orc u ch hist rq aq aff st = some (res, tr))
    (h3 : 3 ≤ hist.length / 2) :
    res.updated_quests = some (checkQuests orc.regQuest orc.advQuest
      (extendedHist hist u res.response.dialogue) (rq.getD ⟨[]⟩) (aq.getD ⟨[]⟩)
      res.updated_affection st) := by
  rw [processMessage_eq] at h
  rcases hval : validateChatResponse (orc.chat (chatCallOf u ch hist aff)) with _ | resp <;>
    rw [hval] at h
  · simp at h
  · rcases hnm : ch.basics.name with _ | nm <;> rw [hnm] at h
    · simp at h
    · simp only at h
      split_ifs at h with hc1 hc2 <;>
        first
          | omega
          | (simp only [Option.some_inj, Prod.mk.injEq] at h
             obtain ⟨hres, htr⟩ := h
             subst hres
             rfl)

/-- C1 witness for the amended claim: a concrete run in which the stage
regresses the flag and the TurnResult reflects exactly that output. -/
theorem C1_witness :
    c1result.updated_quests = some (checkQuests regressOracles.regQuest
      regressOracles.advQuest (extendedHist (histN 8) "hi" c1result.response.dialogue)
      ⟨[c1quest]⟩ ⟨[]⟩ c1result.updated_affection "friend") :=
  C1_amended_no_regression_guard regressOracles "hi" sampleCharacter (histN 8)
    (some ⟨[c1quest]⟩) none 50 "friend" c1result c1trace (by decide) (by decide)

/-- C2: the sequence of executed stages of every successful ProcessTurn call
is a total function of the turn count (half the history length, rounded
down) alone: below 3 it is Response then Memory, from 3 to 9 it is Response,
Quest, Memory, and from 10 on it is Response, Quest, Profile, Memory. -/
theorem C2_routing_total_function (orc : Oracles) (u : String) (ch : Character)
    (hist : List HistEntry) (rq aq : Option QuestCollection) (aff : Int) (st : String)
    (res : TurnResult) (tr : List NodeName)
    (h : processMessage orc u ch hist rq aq aff st = some (res, tr)) :
    tr = if hist.length / 2 < 3 then [NodeName.chat, NodeName.summarize]
         else if hist.length / 2 < 10 then
           [NodeName.chat, NodeName.check_quests, NodeName.summarize]
         else [NodeName.chat, NodeName.check_quests, NodeName.update_profile,
               NodeName.summarize] := by
  rw [processMessage_eq] at h
  rcases hval : validateChatResponse (orc.chat (chatCallOf u ch hist aff)) with _ | resp <;>
    rw [hval] at h
  · simp at h
  · rcases hnm : ch.basics.name with _ | nm <;> rw [hnm] at h
    · simp at h
    · simp only at h
      split_ifs at h with hc1 hc2 <;>
        (simp only [Option.some_inj, Prod.mk.injEq] at h
         obtain ⟨hres, htr⟩ := h
         subst htr)
      · rw [if_pos hc1]
      · rw [if_neg hc1, if_pos hc2]
      · rw [if_neg hc1, if_neg hc2]

/-- C2 witness: a concrete run with an 8-message history (turn count 4)
executes Response, Quest, Memory. -/
theorem C2_witness :
    c2trace = if (histN 8).length / 2 < 3 then [NodeName.chat, NodeName.summarize]
      else if (histN 8).length / 2 < 10 then
        [NodeName.chat, NodeName.check_quests, NodeName.summarize]
      else [NodeName.chat, NodeName.check_quests, NodeName.update_profile,
            NodeName.summarize] :=
  C2_routing_total_function sampleOracles "hello" sampleCharacter (histN 8)
    none none 50 "friend" c2result c2trace (by decide)

/-- C3: the updated affection of every successful turn equals the raw
Response Stage score clamped into [0, 100], independently of the current
affection and of every downstream stage. -/
theorem C3_affection_clamp (orc : Oracles) (u : String) (ch : Character)
    (hist : List HistEntry) (rq aq : Option QuestCollection) (aff : Int) (st : String)
    (res : TurnResult) (tr : List NodeName)
    (h : processMessage orc u ch hist rq aq aff st = some (res, tr)) :
    res.updated_affection = min 100 (max 0 res.response.affection_score) := by
  rw [processMessage_eq] at h
  rcases hval : validateChatResponse (orc.chat (chatCallOf u ch hist aff)) with _ | resp <;>
    rw [hval] at h
  · simp at h
  · rcases hnm : ch.basics.name with _ | nm <;> rw [hnm] at h
    · simp at h
    · simp only at h
      split_ifs at h <;>
        (simp only [Option.some_inj, Prod.mk.injEq] at h
         obtain ⟨hres, htr⟩ := h
         subst hres
         rfl)

/-- C3 witness: a raw score of 137 produces updated affection 100, with no
error, regardless of the input affection 50. -/
theorem C3_witness :
    c3result.updated_affection = min 100 (max 0 c3result.response.affection_score) ∧
    c3result.response.affection_score = 137 ∧
    c3result.updated_affection = 100 :=
  ⟨C3_affection_clamp oracles137 "hi" sampleCharacter [] none none 50 "stranger"
     c3result c3trace (by decide), by decide, by decide⟩

/-- C4 counterexample: two histories that differ in an earlier turn produce
identical milestone-check capability inputs, and the content of the dropped
turn is absent from the formatted history — the milestone check does not
receive the full history. -/
theorem C4_counterexample :
    c4h1 ≠ c4h2 ∧
    advCallOf c4h1 ⟨[]⟩ 50 "friend" = advCallOf c4h2 ⟨[]⟩ 50 "friend" ∧
    strContains (advCallOf c4h1 ⟨[]⟩ 50 "friend").history "Paris" = false := by
  refine ⟨by decide, by decide, by decide⟩

/-- C4 amended: the milestone check receives only the last six messages
(three turns) of the history it is given, formatted as text, so its
judgment is invariant under any change to earlier turns. -/
theorem C4_amended_last_six_only (oracle : AdvCheckCall → QuestCollection)
    (h1 h2 : List HistEntry) (q : QuestCollection) (a : Int) (s : String)
    (hsuffix : lastN 6 h1 = lastN 6 h2) :
    checkAdvancementQuest oracle h1 q a s = checkAdvancementQuest oracle h2 q a s := by
  unfold checkAdvancementQuest advCallOf formatHistoryChecker
  rw [hsuffix]

/-- C4 witness for the amended claim: the two concrete histories agree on
their last six messages, so the checks coincide. -/
theorem C4_witness :
    checkAdvancementQuest (fun c => c.quest_json) c4h1 ⟨[]⟩ 50 "friend" =
      checkAdvancementQuest (fun c => c.quest_json) c4h2 ⟨[]⟩ 50 "friend" :=
  C4_amended_last_six_only (fun c => c.quest_json) c4h1 c4h2 ⟨[]⟩ 50 "friend" (by decide)

/-- C5 counterexample: an out-of-range affection score (137) does not fail
the turn — the call succeeds and the score is clamped to 100. -/
theorem C5_counterexample :
    processMessage oracles137 "hey" sampleCharacter [] none none 40 "stranger"
      = some (c5result, c3trace) ∧
    c5result.response.affection_score = 137 ∧
    c5result.updated_affection = 100 := by
  refine ⟨by decide, by decide, by decide⟩

/-- C5 amended: a Response Stage output with a required field missing fails
schema validation and the whole turn fails with no substituted default and
no partial result; an out-of-range score, by contrast, passes validation and
is clamped. -/
theorem C5_amended_missing_field_fails (orc : Oracles) (u : String) (ch : Character)
    (hist : List HistEntry) (rq aq : Option QuestCollection) (aff : Int) (st : String)
    (h : validateChatResponse (orc.chat (chatCallOf u ch hist aff)) = none) :
    processMessage orc u ch hist rq aq aff st = none := by
  rw [processMessage_eq, h]

/-- C5 witness for the amended claim: with the affection_score field absent
from the raw output, the whole turn fails. -/
theorem C5_witness :
    processMessage oraclesMissing "hi" sampleCharacter [] none none 50 "stranger" = none :=
  C5_amended_missing_field_fails oraclesMissing "hi" sampleCharacter [] none none 50
    "stranger" (by decide)

/-- C6: whenever the profile capability output contains the no-updates
marker case-insensitively, the Profile Stage returns the existing addendum
exactly, unmodified. -/
theorem C6_empty_marker_passthrough (oracle : ProfileCall → String) (ch : Character)
    (history : List HistEntry) (qc : Option QuestResults)
    (h : strContains (lowerStr (oracle (profileCallOf ch.details history qc)))
          "no significant updates" = true) :
    updateProfile oracle ch history qc = ch.dynamic_profile := by
  simp [updateProfile, dynamicProfile, h]

/-- C6 witness: a cased variant of the marker leaves the concrete non-empty
addendum untouched. -/
theorem C6_witness :
    updateProfile c6oracle c6char (histN 6) none = c6char.dynamic_profile :=
  C6_empty_marker_passthrough c6oracle c6char (histN 6) none (by decide)

/-- C7: for any history with fewer than two messages the Memory Stage
returns all five categories empty and makes no capability call. -/
theorem C7_memory_short_circuit (oracle : MemoryCall → MemoryFacts)
    (history : List HistEntry) (name : String) (h : history.length < 2) :
    getMemory oracle history name =
      ({ facts := [], emotions := [], key_events := [], user_info := [],
         character_revelations := [] }, []) := by
  rw [getMemory, if_pos h]
  rfl

/-- C7 witness: a one-message history with a memory oracle whose output is
visibly non-empty still yields the empty bundle and zero calls. -/
theorem C7_witness :
    getMemory c7oracle c7hist "Luna" =
      ({ facts := [], emotions := [], key_events := [], user_info := [],
         character_revelations := [] }, []) :=
  C7_memory_short_circuit c7oracle c7hist "Luna" (by decide)

/-- C8: in every successful turn, the Memory Stage consumes exactly the new
pair synthesized from the user message and the reply dialogue, and the Quest
and Profile Stages (when routed) consume the caller-supplied history
extended with exactly that pair. -/
theorem C8_downstream_sees_new_pair (orc : Oracles) (u : String) (ch : Character)
    (hist : List HistEntry) (rq aq : Option QuestCollection) (aff : Int) (st : String)
    (res : TurnResult) (tr : List NodeName) (nm : String)
    (h : processMessage orc u ch hist rq aq aff st = some (res, tr))
    (hn : ch.basics.name = some nm) :
    res.memories = some (orc.memory ⟨nm, extractFacts u res.response.dialogue⟩) ∧
    (3 ≤ hist.length / 2 →
      res.updated_quests = some (checkQuests orc.regQuest orc.advQuest
        (extendedHist hist u res.response.dialogue) (rq.getD ⟨[]⟩) (aq.getD ⟨[]⟩)
        res.updated_affection st)) ∧
    (10 ≤ hist.length / 2 →
      res.updated_dynamic_profile = updateProfile orc.profile ch
        (extendedHist hist u res.response.dialogue) res.updated_quests) := by
  rw [processMessage_eq] at h
  rcases hval : validateChatResponse (orc.chat (chatCallOf u ch hist aff)) with _ | resp <;>
    rw [hval] at h
  · simp at h
  · rw [hn] at h
    simp only at h
    split_ifs at h with hc1 hc2 <;>
      (simp only [Option.some_inj, Prod.mk.injEq] at h
       obtain ⟨hres, htr⟩ := h
       subst hres)
    · exact ⟨rfl, fun h3 => by omega, fun h10 => by omega⟩
    · exact ⟨rfl, fun _ => rfl, fun h10 => by omega⟩
    · exact ⟨rfl, fun _ => rfl, fun _ => rfl⟩

/-- C8 witness: a concrete 20-message run in which all three downstream
stages consume the extended history and the memory input is the new pair. -/
theorem C8_witness :
    c8result.memories = some (sampleOracles.memory
      ⟨"Luna", extractFacts "hello" c8result.response.dialogue⟩) ∧
    c8result.updated_quests = some (checkQuests sampleOracles.regQuest
      sampleOracles.advQuest (extendedHist (histN 20) "hello" c8result.response.dialogue)
      ⟨[]⟩ ⟨[]⟩ c8result.updated_affection "friend") ∧
    c8result.updated_dynamic_profile = updateProfile sampleOracles.profile sampleCharacter
      (extendedHist (histN 20) "hello" c8result.response.dialogue)
      c8result.updated_quests := by
  have H := C8_downstream_sees_new_pair sampleOracles "hello" sampleCharacter (histN 20)
    none none 50 "friend" c8result c8trace "Luna" (by decide) (by decide)
  exact ⟨H.1, H.2.1 (by decide), H.2.2 (by decide)⟩

/-- C9 counterexample: with an empty existing addendum and a non-empty
proposal, the returned addendum is the bare proposal, not the existing
addendum followed by the delimited heading and the proposal. -/
theorem C9_counterexample :
    c9char.dynamic_profile = "" ∧
    dynamicProfile c9oracle (histN 6) c9char.details none = "Enjoys stargazing" ∧
    updateProfile c9oracle c9char (histN 6) none = "Enjoys stargazing" ∧
    updateProfile c9oracle c9char (histN 6) none ≠
      c9char.dynamic_profile ++ ("\n\n=== Recent Updates ===\n" ++ "Enjoys stargazing") := by
  refine ⟨by decide, by decide, by decide, by decide⟩

/-- C9 amended: an empty proposal passes the existing addendum through; a
non-empty proposal is appended under the Recent Updates heading when the
existing addendum is non-empty and returned bare when it is empty; in every
case the existing addendum is a prefix of the result. -/
theorem C9_amended_append_log (oracle : ProfileCall → String) (ch : Character)
    (history : List HistEntry) (qc : Option QuestResults) :
    (dynamicProfile oracle history ch.details qc = "" →
      updateProfile oracle ch history qc = ch.dynamic_profile) ∧
    (dynamicProfile oracle history ch.details qc ≠ "" → ch.dynamic_profile ≠ "" →
      updateProfile oracle ch history qc =
        ch.dynamic_profile ++ ("\n\n=== Recent Updates ===\n" ++
          dynamicProfile oracle history ch.details qc)) ∧
    (dynamicProfile oracle history ch.details qc ≠ "" → ch.dynamic_profile = "" →
      updateProfile oracle ch history qc = dynamicProfile oracle history ch.details qc) ∧
    (∃ t, updateProfile oracle ch history qc = ch.dynamic_profile ++ t) := by
  unfold updateProfile
  dsimp only
  split_ifs with h1 h2
  · exact ⟨fun _ => rfl, fun hne _ => absurd h1 hne, fun hne _ => absurd h1 hne,
      ⟨"", (String.append_empty _).symm⟩⟩
  · exact ⟨fun he => absurd he h1, fun _ _ => rfl, fun _ hde => absurd hde h2,
      ⟨_, rfl⟩⟩
  · have hde : ch.dynamic_profile = "" := not_ne_iff.mp h2
    exact ⟨fun he => absurd he h1, fun _ hne => absurd hde hne, fun _ _ => rfl,
      ⟨_, by rw [hde, String.empty_append]⟩⟩

/-- C9 witness for the amended claim: a concrete non-empty proposal is
appended to a concrete non-empty addendum under the heading. -/
theorem C9_witness :
    updateProfile c9oracle w9char (histN 6) none =
      w9char.dynamic_profile ++ ("\n\n=== Recent Updates ===\n" ++
        dynamicProfile c9oracle (histN 6) w9char.details none) :=
  (C9_amended_append_log c9oracle w9char (histN 6) none).2.1 (by decide) (by decide)

/-- C10: a history entry whose role or content is missing or empty, or whose
role is neither user nor assistant, is silently omitted from the chat prompt
history and does not affect the remaining entries. -/
theorem C10_bad_entries_skipped (l1 l2 : List HistEntry) (e : HistEntry)
    (h : chatSkipped e = true) :
    formatChatHistory (l1 ++ e :: l2) = formatChatHistory (l1 ++ l2) := by
  have he : chatEntryMessage e = none := by
    rcases e with ⟨(_ | r), (_ | c)⟩ <;>
      simp_all [chatSkipped, chatEntryMessage]
    split_ifs <;> simp_all
  unfold formatChatHistory
  rw [List.filterMap_append, List.filterMap_append, List.filterMap_cons_none he]

/-- C10 witness: a system-role entry between a user and an assistant entry
is dropped and the rest is formatted in order, unchanged. -/
theorem C10_witness :
    formatChatHistory (c10l1 ++ c10entry :: c10l2) = formatChatHistory (c10l1 ++ c10l2) ∧
    formatChatHistory (c10l1 ++ c10entry :: c10l2) =
      [LCMessage.human "hi", LCMessage.ai "hey"] :=
  ⟨C10_bad_entries_skipped c10l1 c10l2 c10entry (by decide), by decide⟩

end Jake
